import Mathlib

/-!
Verification development for the cross-cluster History Replicator of the
temporal repository. The replicator implementation itself
(`historyReplicator.go`) is not part of the source snapshot; only its test
suite (`historyReplicatorSuite` in the snapshot) and the protocol
definitions are. The definitions below are therefore modelled from the
specification (spec.md sections 4.4 to 4.9), with every point that the
repository test suite pins down concretely made to agree with those
tests. Each operation is embedded as a pure function from its inputs and
an environment (the values the mocked collaborators return in the tests)
to the list of collaborator calls it performs plus its outcome.
-/

namespace TemporalReplicator

/-- Workflow history event types that the replicator inspects. -/
inductive EventType
  | workflowExecutionStarted
  | workflowExecutionSignaled
  | workflowExecutionCanceled
  | otherEvent
deriving DecidableEq, Repr

/-- Execution state of a run, mirroring WorkflowExecutionState of the proto
definitions (Created, Running, Completed). -/
inductive WorkflowState
  | created
  | running
  | completed
deriving DecidableEq, Repr

/-- Replication info entry: the last (version, eventID) pair observed from a
given cluster, mirroring replication.ReplicationInfo. -/
structure ReplInfo where
  version : Int
  lastEventId : Int
deriving DecidableEq, Repr

/-- History event as the replicator reads it: event id, failover version,
task id, event type, and the attributes of a WorkflowExecutionSignaled
event (empty strings for other event types). -/
structure HistoryEvent where
  eventId : Int
  version : Int
  taskId : Int
  eventType : EventType
  signalName : String
  signalInput : String
  signalIdentity : String
deriving DecidableEq, Repr

/-- Modelled from the spec: the mutable-state builder of a run (spec.md
section 2 and 3), restricted to the queries the replicator performs:
execution info fields (runID, state, nextEventID, lastEventTaskID),
replication state (lastWriteVersion, lastWriteEventID, lastReplicationInfo),
buffered-event and decision bookkeeping, and the update condition used for
optimistic concurrency. The builder type itself lives in the missing
replicator sources; tests stand in for it with gomock doubles. -/
structure MutableState where
  runID : String
  state : WorkflowState
  lastWriteVersion : Int
  lastWriteEventID : Int
  nextEventID : Int
  lastEventTaskID : Int
  hasBufferedEvents : Bool
  pendingDecision : Bool
  inFlightDecision : Option (Int × Int)
  lastReplicationInfo : List (String × ReplInfo)
  updateCondition : Int
deriving DecidableEq, Repr

/-- Cluster metadata capability (spec.md section 2): the current cluster
name, the total function from failover versions to cluster names, and the
same-cluster test on two versions. -/
structure ClusterMetadata where
  currentClusterName : String
  clusterNameForFailoverVersion : Int → String
  isVersionFromSameCluster : Int → Int → Bool

/-- Creation mode passed to CreateWorkflowExecution. -/
inductive CreateMode
  | brandNew
  | workflowIDReuse
deriving DecidableEq, Repr

/-- Collaborator calls the replicator performs, recorded as a trace. -/
inductive Op
  | appendHistoryNodes (branchToken : String)
  | createWorkflowExecution (mode : CreateMode) (previousRunID : String)
      (previousLastWriteVersion : Int)
  | deleteHistoryBranch (branchToken : String) (shardID : Int)
  | updateCurrentVersion (version : Int) (forceUpdate : Bool)
  | addWorkflowExecutionSignaled (signalName : String) (signalInput : String)
      (identity : String)
  | addDecisionTaskScheduledEvent (bypassTaskGeneration : Bool)
  | addDecisionTaskFailedEvent (scheduleID : Int) (startedID : Int)
  | addWorkflowExecutionTerminatedEvent (nextEventID : Int) (reason : String)
      (identity : String)
  | updateWorkflowExecutionAsActive
  | updateWorkflowExecutionAsPassive
  | resolverReset (prevRunID : String) (prevLastWriteVersion : Int)
      (prevState : WorkflowState) (replayEventID : Int) (updateCondition : Int)
  | applyResetEvent (currentRunID : String)
deriving DecidableEq, Repr

/-- Errors the replicator surfaces (spec.md sections 6 and 7). RetryTask
errors carry the message tag, the run id, and the nextEventID hint. -/
inductive ReplicationError
  | retryTaskErr (message : String) (runID : String) (nextEventID : Int)
  | moreThan2DC
  | impossibleRemoteClaimSeenHigherVersion
  | corruptedReplicationInfo
  | corruptedMutableStateDecision
  | emptyHistoryErr
deriving DecidableEq, Repr

/-- Which mutable state ApplyOtherEventsVersionChecking hands back: nothing
(request handled internally by drop or reapplication), the input mutable
state unchanged, or the fresh mutable state returned by the conflict
resolver. -/
inductive MutableStateOut
  | dropped
  | input
  | reset
deriving DecidableEq, Repr

/-- ReplicateEvents request fields the decision logic reads (spec.md
section 4.2 and the historyservice proto). -/
structure ReplicateEventsRequest where
  version : Int
  firstEventId : Int
  nextEventId : Int
  replicationInfo : List (String × ReplInfo)
  events : List HistoryEvent
  resetWorkflow : Bool
deriving DecidableEq, Repr

/-- Persistence view used to resolve the current run of a workflow:
GetCurrentExecution result (none models a NotFound condition) together with
the loaded mutable state of that current run. -/
structure CurrentWorldView where
  currentRunID : Option String
  currentMS : MutableState
deriving DecidableEq, Repr

/-- Message tag of ErrWorkflowNotFound retry errors. -/
def ErrWorkflowNotFoundMsg : String := "workflow not found"

/-- Message tag of ErrRetryExistingWorkflow retry errors. -/
def ErrRetryExistingWorkflowMsg : String := "workflow with same version is running"

/-- Message tag of ErrRetryBufferEvents retry errors. -/
def ErrRetryBufferEventsMsg : String := "retry task on applying events"

/-- Termination reason used when the replicator terminates a current run
(spec.md section 4.4). -/
def workflowTerminationReason : String := "history replicator terminating workflow"

/-- Identity stamped on replicator-authored termination events (spec.md
section 4.4). -/
def workflowTerminationIdentity : String := "history-service"

/-- The id of the first event of every history (common.FirstEventID). -/
def firstEventIDConst : Int := 1

/-- Association-list lookup for per-cluster replication info maps. -/
def lookupInfo : List (String × ReplInfo) → String → Option ReplInfo
  | [], _ => none
  | (k, v) :: rest, key => if k = key then some v else lookupInfo rest key

/-- Modelled from the spec: signal extraction of section 4.8 - from a list
of incoming events keep exactly those of type WorkflowExecutionSignaled. -/
def signalEvents (events : List HistoryEvent) : List HistoryEvent :=
  events.filter (fun e => e.eventType == EventType.workflowExecutionSignaled)

/-- Modelled from the spec: the per-event body of signal reapplication
(spec.md section 4.8 steps 2 to 5). For each signal event the target run
gets UpdateCurrentVersion(lastWriteVersion, forceUpdate=true), then
AddWorkflowExecutionSignaled with the event attributes, then
AddDecisionTaskScheduledEvent(false) exactly when no decision is pending,
and a commit as active. Scheduling a decision leaves a pending decision for
the following events. -/
def reapplySignalOps : Int → Bool → List HistoryEvent → List Op
  | _, _, [] => []
  | lastWriteVersion, pending, e :: rest =>
    [Op.updateCurrentVersion lastWriteVersion true,
     Op.addWorkflowExecutionSignaled e.signalName e.signalInput e.signalIdentity]
    ++ (if pending then [] else [Op.addDecisionTaskScheduledEvent false])
    ++ [Op.updateWorkflowExecutionAsActive]
    ++ reapplySignalOps lastWriteVersion true rest

/-- Modelled from the spec: signal reapplication into a target run
(spec.md section 4.8). Only WorkflowExecutionSignaled events are applied;
with no signal events present nothing is done. -/
def reapplyEvents (target : MutableState) (events : List HistoryEvent) : List Op :=
  reapplySignalOps target.lastWriteVersion target.pendingDecision (signalEvents events)

/-- Modelled from the spec: terminating a current run (spec.md section 4.4):
update the current version to the run last write version (forced), add
WorkflowExecutionTerminatedEvent at the run nextEventID with the replicator
termination reason and identity, and commit the run as active. -/
def terminateOps (current : MutableState) : List Op :=
  [Op.updateCurrentVersion current.lastWriteVersion true,
   Op.addWorkflowExecutionTerminatedEvent current.nextEventID
     workflowTerminationReason workflowTerminationIdentity,
   Op.updateWorkflowExecutionAsActive]

/-- Modelled from the spec: flushing buffered events (spec.md section 4.6,
equal-version no-divergence case). With the run running and buffered events
present, the in-flight decision is failed with cause FailoverCloseDecision,
a replacement decision is scheduled (after failing, none is pending), and
the run is committed as active; the two added events advance
lastWriteEventID and nextEventID by two, as the test suite records. With
nothing to flush the state is returned untouched. A missing in-flight
decision while buffered events exist is a corrupted-state error. -/
def flushEventsBuffer (ms : MutableState) :
    MutableState × List Op × Option ReplicationError :=
  if ms.state = WorkflowState.completed ∨ ms.hasBufferedEvents = false then
    (ms, [], none)
  else
    match ms.inFlightDecision with
    | none => (ms, [], some ReplicationError.corruptedMutableStateDecision)
    | some (scheduleID, startedID) =>
      ({ ms with
          lastWriteEventID := ms.lastWriteEventID + 2,
          nextEventID := ms.nextEventID + 2,
          hasBufferedEvents := false,
          pendingDecision := true,
          inFlightDecision := none },
       [Op.updateCurrentVersion ms.lastWriteVersion true,
        Op.addDecisionTaskFailedEvent scheduleID startedID,
        Op.addDecisionTaskScheduledEvent false,
        Op.updateWorkflowExecutionAsActive],
       none)

/-- Modelled from the spec: ApplyOtherEventsVersionChecking (spec.md
section 4.6) over a known target run. Returns the trace of collaborator
calls, which mutable state is handed back, and the error if any. Structure:
incoming below the run last write version drops the batch after reapplying
any signal events (into this run when it still runs, otherwise into the
workflow current run resolved from persistence); equal versions accept the
input state; larger incoming versions enter the conflict-detection protocol
of section 4.6, with the conflict-resolver cut points exactly as the test
suite records them. -/
def applyOtherEventsVersionChecking (cm : ClusterMetadata)
    (world : CurrentWorldView) (ms : MutableState)
    (req : ReplicateEventsRequest) :
    List Op × MutableStateOut × Option ReplicationError :=
  if req.version < ms.lastWriteVersion then
    if ms.state = WorkflowState.completed then
      match world.currentRunID with
      | none => ([], MutableStateOut.dropped, none)
      | some _ =>
        (reapplyEvents world.currentMS req.events, MutableStateOut.dropped, none)
    else
      (reapplyEvents ms req.events, MutableStateOut.dropped, none)
  else if req.version = ms.lastWriteVersion then
    ([], MutableStateOut.input, none)
  else
    if cm.clusterNameForFailoverVersion ms.lastWriteVersion = cm.currentClusterName then
      match lookupInfo req.replicationInfo
          (cm.clusterNameForFailoverVersion ms.lastWriteVersion) with
      | none =>
        ([Op.resolverReset ms.runID ms.lastWriteVersion ms.state
            (match lookupInfo ms.lastReplicationInfo
                (cm.clusterNameForFailoverVersion req.version) with
             | some ri => ri.lastEventId
             | none => 0)
            ms.updateCondition],
         MutableStateOut.reset, none)
      | some ri =>
        if ms.lastWriteVersion < ri.version then
          ([], MutableStateOut.dropped,
           some ReplicationError.impossibleRemoteClaimSeenHigherVersion)
        else if ri.version < ms.lastWriteVersion then
          ([Op.resolverReset ms.runID ms.lastWriteVersion ms.state
              (match lookupInfo ms.lastReplicationInfo
                  (cm.clusterNameForFailoverVersion req.version) with
               | some lri => lri.lastEventId
               | none => 0)
              ms.updateCondition],
           MutableStateOut.reset, none)
        else
          if ms.lastWriteEventID < ri.lastEventId then
            ([], MutableStateOut.dropped,
             some ReplicationError.corruptedReplicationInfo)
          else
            match flushEventsBuffer ms with
            | (_, flushOps, some e) => (flushOps, MutableStateOut.dropped, some e)
            | (ms2, flushOps, none) =>
              if ri.lastEventId < ms2.lastWriteEventID then
                (flushOps ++
                 [Op.resolverReset ms2.runID ms2.lastWriteVersion ms2.state
                    ri.lastEventId ms2.updateCondition],
                 MutableStateOut.reset, none)
              else
                (flushOps, MutableStateOut.input, none)
    else
      if cm.isVersionFromSameCluster req.version ms.lastWriteVersion then
        ([], MutableStateOut.input, none)
      else
        ([], MutableStateOut.dropped, some ReplicationError.moreThan2DC)

/-- Modelled from the spec: ApplyOtherEventsMissingMutableState (spec.md
section 4.5), handling a replication batch for a run unknown locally. The
incoming version is the version of the first event. A missing current
execution yields RetryTask(ErrWorkflowNotFound, firstEventID). Otherwise
the current run mutable state decides: stale incoming versions reapply
signals into the current run; the resetWorkflow flag delegates to the
workflow resetor; equal versions with the current run still running drop
out-of-order duplicates (the incoming first event task id strictly below
the current run lastEventTaskID, the strictness being what the test suite
records) and otherwise ask for a resend from the current run nextEventID;
larger incoming versions terminate a still-running current run and ask for
a resend from the first event. -/
def applyOtherEventsMissingMutableState (world : CurrentWorldView)
    (runID : String) (req : ReplicateEventsRequest) :
    List Op × Option ReplicationError :=
  match req.events with
  | [] => ([], some ReplicationError.emptyHistoryErr)
  | firstEvent :: _ =>
    match world.currentRunID with
    | none =>
      ([], some (ReplicationError.retryTaskErr ErrWorkflowNotFoundMsg runID
                  firstEventIDConst))
    | some currentRunID =>
      if firstEvent.version < world.currentMS.lastWriteVersion then
        (reapplyEvents world.currentMS req.events, none)
      else if req.resetWorkflow then
        ([Op.applyResetEvent currentRunID], none)
      else if firstEvent.version = world.currentMS.lastWriteVersion then
        if world.currentMS.state = WorkflowState.completed then
          ([], some (ReplicationError.retryTaskErr ErrWorkflowNotFoundMsg runID
                      firstEventIDConst))
        else
          if firstEvent.taskId < world.currentMS.lastEventTaskID then
            ([], none)
          else
            ([], some (ReplicationError.retryTaskErr ErrWorkflowNotFoundMsg
                        currentRunID world.currentMS.nextEventID))
      else
        if world.currentMS.state = WorkflowState.completed then
          ([], some (ReplicationError.retryTaskErr ErrWorkflowNotFoundMsg runID
                      firstEventIDConst))
        else
          (terminateOps world.currentMS,
           some (ReplicationError.retryTaskErr ErrWorkflowNotFoundMsg runID
                  firstEventIDConst))

/-- Modelled from the spec: ApplyOtherEvents (spec.md section 4.7) on a
known run. Batches starting strictly below the local nextEventID are
dropped as duplicates with nothing committed; a batch starting exactly at
the local nextEventID is applied through the state builder and committed as
passive; a gap on a running workflow asks the caller to backfill with
RetryTask(ErrRetryBufferEvents, localNext), while a gap on a closed
workflow is silently dropped. -/
def applyOtherEvents (ms : MutableState) (req : ReplicateEventsRequest) :
    List Op × Option ReplicationError :=
  if req.firstEventId < ms.nextEventID then
    ([], none)
  else if req.firstEventId = ms.nextEventID then
    ([Op.updateWorkflowExecutionAsPassive], none)
  else
    if ms.state = WorkflowState.completed then
      ([], none)
    else
      ([], some (ReplicationError.retryTaskErr ErrRetryBufferEventsMsg ms.runID
                  ms.nextEventID))

/-- The AlreadyStartedError condition CreateWorkflowExecution reports: the
current run id, its state and its last write version. -/
structure AlreadyStartedError where
  runID : String
  state : WorkflowState
  lastWriteVersion : Int
deriving DecidableEq, Repr

/-- Environment of one start-event replication: identity of the new run,
its branch token and shard, the incoming version, the new run last event
task id (executionInfo.LastEventTaskID of the freshly built run, equal to
the task id of its last incoming event), the result of the BrandNew
CreateWorkflowExecution attempt (none models success) and the result of a
WorkflowIDReuse retry should one be issued (none models success). -/
structure StartReplicationEnv where
  runID : String
  branchToken : String
  shardID : Int
  incomingVersion : Int
  incomingLastEventTaskID : Int
  createResult : Option AlreadyStartedError
  retryCreateError : Option ReplicationError
deriving DecidableEq, Repr

/-- Modelled from the spec: replicateWorkflowStarted (spec.md section 4.4).
History nodes are appended and CreateWorkflowExecution(mode=BrandNew) is
attempted. On AlreadyStartedError: the same run id is an idempotent retry
(success); a completed current run leads to a WorkflowIDReuse retry with
previousRunID and previousLastWriteVersion taken from the error - the test
suite records this retry for every version relation, including incoming
strictly below current, where the spec text instead describes a branch
deletion; a running current run with a larger version rejects the new run,
deletes the freshly appended branch and reapplies signal events into the
current run; equal versions drop out-of-order duplicates (new run last
event task id strictly below the current run lastEventTaskID, the
strictness being what the test suite records) and otherwise return
RetryTask(ErrRetryExistingWorkflow, currentRunID, currentNextEventID); a
running current run with a smaller version is terminated and the creation
is retried with WorkflowIDReuse. -/
def replicateWorkflowStarted (env : StartReplicationEnv)
    (world : CurrentWorldView) (events : List HistoryEvent) :
    List Op × Option ReplicationError :=
  let base := [Op.appendHistoryNodes env.branchToken,
               Op.createWorkflowExecution CreateMode.brandNew "" 0]
  match env.createResult with
  | none => (base, none)
  | some e =>
    if e.runID = env.runID then
      (base, none)
    else if e.state = WorkflowState.completed then
      (base ++ [Op.createWorkflowExecution CreateMode.workflowIDReuse e.runID
                  e.lastWriteVersion],
       env.retryCreateError)
    else if env.incomingVersion < e.lastWriteVersion then
      (base ++ [Op.deleteHistoryBranch env.branchToken env.shardID]
            ++ reapplyEvents world.currentMS events, none)
    else if env.incomingVersion = e.lastWriteVersion then
      if env.incomingLastEventTaskID < world.currentMS.lastEventTaskID then
        (base, none)
      else
        (base, some (ReplicationError.retryTaskErr ErrRetryExistingWorkflowMsg
                      world.currentMS.runID world.currentMS.nextEventID))
    else
      (base ++ terminateOps world.currentMS
            ++ [Op.createWorkflowExecution CreateMode.workflowIDReuse e.runID
                  e.lastWriteVersion],
       env.retryCreateError)

/-- GetCurrentExecution response fields the conflict-resolution terminate
step reads: run id, persisted state, whether the status is Running, and the
last write version. -/
structure CurrentExecutionRecord where
  runID : String
  state : WorkflowState
  statusRunning : Bool
  lastWriteVersion : Int
deriving DecidableEq, Repr

/-- Modelled from the spec: the conflict-resolution step that terminates
the workflow current run when it is not the reset target itself (the
terminate procedure of spec.md section 4.4 as invoked from the conflict
resolution flow; the function itself lives in the missing replicator
sources and is pinned by the TestConflictResolutionTerminateCurrentRunning
tests). A still-running target returns its own (runID, lastWriteVersion,
state) without consulting persistence. For a closed target the current
execution record decides: no current execution or a non-running status
returns it untouched; a running current run at or above the incoming
version yields an empty previous-run id with no termination; a running
current run strictly below the incoming version is terminated and reported
with state Completed. -/
def conflictResolutionTerminateCurrentRunningIfNotSelf (target : MutableState)
    (incomingVersion : Int) (currentExec : Option CurrentExecutionRecord)
    (currentMS : MutableState) :
    List Op × (String × Int × WorkflowState) × Option ReplicationError :=
  if target.state = WorkflowState.completed then
    match currentExec with
    | none => ([], ("", 0, WorkflowState.created), none)
    | some cur =>
      if cur.statusRunning then
        if incomingVersion ≤ cur.lastWriteVersion then
          ([], ("", 0, WorkflowState.created), none)
        else
          (terminateOps currentMS,
           (cur.runID, cur.lastWriteVersion, WorkflowState.completed), none)
      else
        ([], (cur.runID, cur.lastWriteVersion, cur.state), none)
  else
    ([], (target.runID, target.lastWriteVersion, target.state), none)

/-- Tests whether a trace contains a termination event addition. -/
def mentionsTerminate (ops : List Op) : Bool :=
  ops.any (fun op =>
    match op with
    | Op.addWorkflowExecutionTerminatedEvent _ _ _ => true
    | _ => false)

/-- Fixture mutable state mirroring the test suite defaults: a running run
with last write version 10 at event 98. -/
def fixMS : MutableState :=
  { runID := "cur", state := WorkflowState.running, lastWriteVersion := 10,
    lastWriteEventID := 98, nextEventID := 99, lastEventTaskID := 0,
    hasBufferedEvents := false, pendingDecision := false,
    inFlightDecision := none, lastReplicationInfo := [], updateCondition := 1394 }

/-- Fixture cluster metadata: versions up to 10 belong to the current
cluster c1, larger versions to the peer c2. -/
def fixCM : ClusterMetadata :=
  { currentClusterName := "c1",
    clusterNameForFailoverVersion := fun v => if v ≤ 10 then "c1" else "c2",
    isVersionFromSameCluster := fun a b => a = b }

/-- Fixture world view with no current execution. -/
def fixWorldNone : CurrentWorldView := { currentRunID := none, currentMS := fixMS }

/-- Fixture request at incoming version 20 whose replication info entry for
the current cluster reports (version 10, lastEventId 88). -/
def fixReqInfo88 : ReplicateEventsRequest :=
  { version := 20, firstEventId := 0, nextEventId := 0,
    replicationInfo := [("c1", { version := 10, lastEventId := 88 })],
    events := [], resetWorkflow := false }

/-- Fixture request at incoming version 20 whose replication info entry for
the current cluster reports (version 10, lastEventId 98). -/
def fixReqInfo98 : ReplicateEventsRequest :=
  { fixReqInfo88 with
    replicationInfo := [("c1", { version := 10, lastEventId := 98 })] }

/-- Fixture mutable state with buffered events and an in-flight decision at
schedule id 56, started id 57. -/
def fixMSBuffered : MutableState :=
  { fixMS with
    hasBufferedEvents := true
    inFlightDecision := some (56, 57) }

/-- Fixture signal event named sn with input si sent by sid. -/
def fixSignalEvent : HistoryEvent :=
  { eventId := 2, version := 110, taskId := 0,
    eventType := EventType.workflowExecutionSignaled, signalName := "sn",
    signalInput := "si", signalIdentity := "sid" }

/-- Fixture request carrying one signal event at stale version 110. -/
def fixReqSignal : ReplicateEventsRequest :=
  { version := 110, firstEventId := 0, nextEventId := 0, replicationInfo := [],
    events := [fixSignalEvent], resetWorkflow := false }

/-- Fixture target run at last write version 123, above the incoming
signal request version. -/
def fixMSTarget123 : MutableState :=
  { fixMS with
    lastWriteVersion := 123 }

/-- Fixture AlreadyStartedError reporting a completed current run r1 at
last write version 145. -/
def fixStartedClosed145 : AlreadyStartedError :=
  { runID := "r1", state := WorkflowState.completed, lastWriteVersion := 145 }

/-- Fixture start-replication environment for run r2 at incoming version
144 whose BrandNew create hits fixStartedClosed145. -/
def fixStartEnvClosed : StartReplicationEnv :=
  { runID := "r2", branchToken := "bt", shardID := 1, incomingVersion := 144,
    incomingLastEventTaskID := 0, createResult := some fixStartedClosed145,
    retryCreateError := none }

/-- Fixture AlreadyStartedError reporting a running current run r1 at last
write version equal to the incoming version 144. -/
def fixStartedRunning144 : AlreadyStartedError :=
  { runID := "r1", state := WorkflowState.running, lastWriteVersion := 144 }

/-- Fixture start environment whose BrandNew create hits
fixStartedRunning144 (equal versions). -/
def fixStartEnvEqual : StartReplicationEnv :=
  { fixStartEnvClosed with
    createResult := some fixStartedRunning144 }

/-- Fixture current-run mutable state r1 with next event id 3456. -/
def fixMSCurrent3456 : MutableState :=
  { fixMS with
    runID := "r1"
    nextEventID := 3456 }

/-- Fixture world view whose current run is fixMSCurrent3456. -/
def fixWorldCurrent3456 : CurrentWorldView :=
  { currentRunID := some "r1", currentMS := fixMSCurrent3456 }

/-- Fixture AlreadyStartedError reporting a running current run r1 at last
write version 143, below the incoming version 144. -/
def fixStartedRunning143 : AlreadyStartedError :=
  { runID := "r1", state := WorkflowState.running, lastWriteVersion := 143 }

/-- Fixture start environment whose BrandNew create hits
fixStartedRunning143. -/
def fixStartEnvLarger : StartReplicationEnv :=
  { fixStartEnvClosed with
    createResult := some fixStartedRunning143 }

/-- Fixture current-run mutable state r1 at version 143 with next event id
2333. -/
def fixMSCurrent143 : MutableState :=
  { fixMS with
    runID := "r1"
    lastWriteVersion := 143
    nextEventID := 2333 }

/-- Fixture world view whose current run is fixMSCurrent143. -/
def fixWorldCurrent143 : CurrentWorldView :=
  { currentRunID := some "r1", currentMS := fixMSCurrent143 }

/-- Fixture request whose first event has version 123 and no signal
attributes. -/
def fixReqPlain123 : ReplicateEventsRequest :=
  { version := 123, firstEventId := 0, nextEventId := 0, replicationInfo := [],
    events := [{ eventId := 1, version := 123, taskId := 0,
                 eventType := EventType.otherEvent, signalName := "",
                 signalInput := "", signalIdentity := "" }],
    resetWorkflow := false }

/-- Fixture current-run mutable state at version 23 with next event id
2333, used for the missing-mutable-state terminate scenario. -/
def fixMSCurrent23 : MutableState :=
  { fixMS with
    lastWriteVersion := 23
    nextEventID := 2333 }

/-- Fixture world view whose current run is fixMSCurrent23. -/
def fixWorldCurrent23 : CurrentWorldView :=
  { currentRunID := some "cur", currentMS := fixMSCurrent23 }

/-- Fixture closed target run for the conflict-resolution terminate step. -/
def fixMSTargetClosed : MutableState :=
  { fixMS with
    state := WorkflowState.completed }

/-- Fixture current execution record cr, running, at version 4086. -/
def fixCurRecRunning : CurrentExecutionRecord :=
  { runID := "cr", state := WorkflowState.running, statusRunning := true,
    lastWriteVersion := 4086 }

/-- Fixture current-run mutable state cr at version 4086 with next event id
2333. -/
def fixMSCurrent4086 : MutableState :=
  { fixMS with
    runID := "cr"
    lastWriteVersion := 4086
    nextEventID := 2333 }

/-- Fixture cluster metadata whose failover versions all map to the peer
cluster c2, with the same-cluster test answering true. -/
def fixCMRemoteSame : ClusterMetadata :=
  { currentClusterName := "c1",
    clusterNameForFailoverVersion := fun _ => "c2",
    isVersionFromSameCluster := fun _ _ => true }

/-- Fixture cluster metadata whose failover versions all map to the peer
cluster c2, with the same-cluster test answering false. -/
def fixCMRemoteDiff : ClusterMetadata :=
  { currentClusterName := "c1",
    clusterNameForFailoverVersion := fun _ => "c2",
    isVersionFromSameCluster := fun _ _ => false }

/-- Fixture current-run mutable state r1 whose lastEventTaskID 2343 is
above the incoming task id. -/
def fixMSCurrent2343 : MutableState :=
  { fixMS with
    runID := "r1"
    lastEventTaskID := 2343 }

/-- Fixture world view whose current run is fixMSCurrent2343. -/
def fixWorldCurrent2343 : CurrentWorldView :=
  { currentRunID := some "r1", currentMS := fixMSCurrent2343 }

/-- Fixture run with next event id 10. -/
def fixMSNext10 : MutableState :=
  { fixMS with
    nextEventID := 10 }

/-- Fixture request whose batch starts at event 6. -/
def fixReqFirst6 : ReplicateEventsRequest :=
  { fixReqInfo88 with
    firstEventId := 6 }

/-- Fixture request whose batch starts at event 14. -/
def fixReqFirst14 : ReplicateEventsRequest :=
  { fixReqInfo88 with
    firstEventId := 14 }

/-- C2: in version checking with the incoming version above the run last
write version, the prior active cluster being the current cluster, and the
request replication info for the current cluster present with version equal
to the run last write version and lastEventID strictly below the run
lastWriteEventID, the conflict resolver reset is invoked at cut point
(lastWriteVersion, info.lastEventID) carrying the run execution info (run
id and state) and the update condition, and the resolver-returned mutable
state is the one handed back for the subsequent append. -/
theorem C2_reset_at_replication_info_cut (cm : ClusterMetadata)
    (world : CurrentWorldView) (ms : MutableState)
    (req : ReplicateEventsRequest) (ri : ReplInfo)
    (h1 : ms.lastWriteVersion < req.version)
    (h2 : cm.clusterNameForFailoverVersion ms.lastWriteVersion =
          cm.currentClusterName)
    (h3 : lookupInfo req.replicationInfo cm.currentClusterName = some ri)
    (h4 : ri.version = ms.lastWriteVersion)
    (h5 : ri.lastEventId < ms.lastWriteEventID)
    (h6 : ms.hasBufferedEvents = false) :
    applyOtherEventsVersionChecking cm world ms req =
      ([Op.resolverReset ms.runID ms.lastWriteVersion ms.state ri.lastEventId
          ms.updateCondition],
       MutableStateOut.reset, none) := by
  have hflush : flushEventsBuffer ms = (ms, [], none) := by
    simp [flushEventsBuffer, h6]
  have hv1 : ¬ req.version < ms.lastWriteVersion := by omega
  have hv2 : ¬ req.version = ms.lastWriteVersion := by omega
  have hv3 : ¬ ms.lastWriteVersion < ri.version := by omega
  have hv4 : ¬ ri.version < ms.lastWriteVersion := by omega
  have hv5 : ¬ ms.lastWriteEventID < ri.lastEventId := by omega
  simp [applyOtherEventsVersionChecking, hv1, hv2, h2, h3, hv3, hv4, hv5,
    hflush, h5]

/-- Witness for C2 at the fixture input of the repository test with a cut
at event 88 of run cur. -/
theorem C2_reset_at_replication_info_cut_witness :
    applyOtherEventsVersionChecking fixCM fixWorldNone fixMS fixReqInfo88 =
      ([Op.resolverReset "cur" 10 WorkflowState.running 88 1394],
       MutableStateOut.reset, none) := by
  have h := C2_reset_at_replication_info_cut fixCM fixWorldNone fixMS
    fixReqInfo88 { version := 10, lastEventId := 88 } (by decide) (by decide)
    (by decide) (by decide) (by decide) (by decide)
  exact h.trans (by decide)

/-- C4: in the signal reapplication path (stale incoming version against a
running target run with exactly one WorkflowExecutionSignaled event among
the incoming events), only that signal event is applied, via
UpdateCurrentVersion(target.lastWriteVersion, forceUpdate=true), then
AddWorkflowExecutionSignaled with the event attributes, then
AddDecisionTaskScheduledEvent(false) exactly when no decision is pending,
and a final commit as active, returning success with no mutable state
handed back. -/
theorem C4_signal_reapplication_trace (cm : ClusterMetadata)
    (world : CurrentWorldView) (ms : MutableState)
    (req : ReplicateEventsRequest) (e : HistoryEvent)
    (h1 : req.version < ms.lastWriteVersion)
    (h2 : ms.state = WorkflowState.running)
    (h3 : signalEvents req.events = [e]) :
    applyOtherEventsVersionChecking cm world ms req =
      ([Op.updateCurrentVersion ms.lastWriteVersion true,
        Op.addWorkflowExecutionSignaled e.signalName e.signalInput
          e.signalIdentity]
       ++ (if ms.pendingDecision then []
           else [Op.addDecisionTaskScheduledEvent false])
       ++ [Op.updateWorkflowExecutionAsActive],
       MutableStateOut.dropped, none) := by
  have hstate : ¬ ms.state = WorkflowState.completed := by simp [h2]
  by_cases hp : ms.pendingDecision
  · simp [applyOtherEventsVersionChecking, h1, hstate, reapplyEvents, h3,
      reapplySignalOps, hp]
  · simp [applyOtherEventsVersionChecking, h1, hstate, reapplyEvents, h3,
      reapplySignalOps, hp]

/-- Witness for C4 at the fixture input: one signal sn from sid reapplied
into a target at version 123 with no pending decision. -/
theorem C4_signal_reapplication_trace_witness :
    applyOtherEventsVersionChecking fixCM fixWorldNone fixMSTarget123
      fixReqSignal =
      ([Op.updateCurrentVersion 123 true,
        Op.addWorkflowExecutionSignaled "sn" "si" "sid",
        Op.addDecisionTaskScheduledEvent false,
        Op.updateWorkflowExecutionAsActive],
       MutableStateOut.dropped, none) := by
  have h := C4_signal_reapplication_trace fixCM fixWorldNone fixMSTarget123
    fixReqSignal fixSignalEvent (by decide) (by decide) (by decide)
  exact h.trans (by decide)

/-- C5: in version checking with the incoming version above the run last
write version, the prior active cluster being the current cluster, and the
request replication info for the current cluster present with version and
lastEventID both equal to the run (lastWriteVersion, lastWriteEventID):
with no buffered events the input mutable state is returned unchanged with
no error; with buffered events the in-flight decision is failed, a
replacement decision is scheduled, the run is committed as active, and the
conflict resolver is then invoked at (lastWriteVersion, info.lastEventID),
its result being the mutable state handed back. -/
theorem C5_no_divergence_flush_then_reset (cm : ClusterMetadata)
    (world : CurrentWorldView) (ms : MutableState)
    (req : ReplicateEventsRequest) (ri : ReplInfo) (sid stid : Int)
    (h1 : ms.lastWriteVersion < req.version)
    (h2 : cm.clusterNameForFailoverVersion ms.lastWriteVersion =
          cm.currentClusterName)
    (h3 : lookupInfo req.replicationInfo cm.currentClusterName = some ri)
    (h4 : ri.version = ms.lastWriteVersion)
    (h5 : ri.lastEventId = ms.lastWriteEventID) :
    (ms.hasBufferedEvents = false →
      applyOtherEventsVersionChecking cm world ms req =
        ([], MutableStateOut.input, none))
    ∧ (ms.hasBufferedEvents = true →
       ms.state ≠ WorkflowState.completed →
       ms.inFlightDecision = some (sid, stid) →
       applyOtherEventsVersionChecking cm world ms req =
         ([Op.updateCurrentVersion ms.lastWriteVersion true,
           Op.addDecisionTaskFailedEvent sid stid,
           Op.addDecisionTaskScheduledEvent false,
           Op.updateWorkflowExecutionAsActive,
           Op.resolverReset ms.runID ms.lastWriteVersion ms.state
             ri.lastEventId ms.updateCondition],
          MutableStateOut.reset, none)) := by
  have hv1 : ¬ req.version < ms.lastWriteVersion := by omega
  have hv2 : ¬ req.version = ms.lastWriteVersion := by omega
  have hv3 : ¬ ms.lastWriteVersion < ri.version := by omega
  have hv4 : ¬ ri.version < ms.lastWriteVersion := by omega
  have hv5 : ¬ ms.lastWriteEventID < ri.lastEventId := by omega
  constructor
  · intro hbuf
    have hflush : flushEventsBuffer ms = (ms, [], none) := by
      simp [flushEventsBuffer, hbuf]
    have hv6 : ¬ ri.lastEventId < ms.lastWriteEventID := by omega
    simp [applyOtherEventsVersionChecking, hv1, hv2, h2, h3, hv3, hv4, hv5,
      hflush, hv6]
  · intro hbuf hstate hdec
    have hcond : ¬ (ms.state = WorkflowState.completed ∨
        ms.hasBufferedEvents = false) := by
      rintro (hA | hB)
      · exact hstate hA
      · rw [hbuf] at hB
        exact absurd hB (by decide)
    have hflush : flushEventsBuffer ms =
        ({ ms with
            lastWriteEventID := ms.lastWriteEventID + 2,
            nextEventID := ms.nextEventID + 2,
            hasBufferedEvents := false,
            pendingDecision := true,
            inFlightDecision := none },
         [Op.updateCurrentVersion ms.lastWriteVersion true,
          Op.addDecisionTaskFailedEvent sid stid,
          Op.addDecisionTaskScheduledEvent false,
          Op.updateWorkflowExecutionAsActive], none) := by
      simp [flushEventsBuffer, hcond, hdec]
    have hv6 : ri.lastEventId < ms.lastWriteEventID + 2 := by omega
    simp [applyOtherEventsVersionChecking, hv1, hv2, h2, h3, hv3, hv4, hv5,
      hflush, hv6]

/-- Witness for C5 at the fixture inputs: no-op on the unbuffered state,
flush-then-reset on the buffered state with in-flight decision (56, 57). -/
theorem C5_no_divergence_flush_then_reset_witness :
    applyOtherEventsVersionChecking fixCM fixWorldNone fixMS fixReqInfo98 =
      ([], MutableStateOut.input, none)
    ∧ applyOtherEventsVersionChecking fixCM fixWorldNone fixMSBuffered
        fixReqInfo98 =
      ([Op.updateCurrentVersion 10 true,
        Op.addDecisionTaskFailedEvent 56 57,
        Op.addDecisionTaskScheduledEvent false,
        Op.updateWorkflowExecutionAsActive,
        Op.resolverReset "cur" 10 WorkflowState.running 98 1394],
       MutableStateOut.reset, none) := by
  constructor
  · exact (C5_no_divergence_flush_then_reset fixCM fixWorldNone fixMS
      fixReqInfo98 { version := 10, lastEventId := 98 } 0 0 (by decide)
      (by decide) (by decide) (by decide) (by decide)).1 (by decide)
  · exact ((C5_no_divergence_flush_then_reset fixCM fixWorldNone fixMSBuffered
      fixReqInfo98 { version := 10, lastEventId := 98 } 56 57 (by decide)
      (by decide) (by decide) (by decide) (by decide)).2 (by decide)
      (by decide) (by decide)).trans (by decide)

/-- C8: in version checking with the incoming version above the run last
write version and the prior active cluster differing from the current
cluster name, the input mutable state is returned unchanged when
IsVersionFromSameCluster holds on the two versions, and the call fails with
ErrMoreThan2DC returning no mutable state otherwise. -/
theorem C8_prior_remote_authority (cm : ClusterMetadata)
    (world : CurrentWorldView) (ms : MutableState)
    (req : ReplicateEventsRequest)
    (h1 : ms.lastWriteVersion < req.version)
    (h2 : cm.clusterNameForFailoverVersion ms.lastWriteVersion ≠
          cm.currentClusterName) :
    (cm.isVersionFromSameCluster req.version ms.lastWriteVersion = true →
      applyOtherEventsVersionChecking cm world ms req =
        ([], MutableStateOut.input, none))
    ∧ (cm.isVersionFromSameCluster req.version ms.lastWriteVersion = false →
      applyOtherEventsVersionChecking cm world ms req =
        ([], MutableStateOut.dropped, some ReplicationError.moreThan2DC)) := by
  have hv1 : ¬ req.version < ms.lastWriteVersion := by omega
  have hv2 : ¬ req.version = ms.lastWriteVersion := by omega
  constructor
  · intro hsame
    simp [applyOtherEventsVersionChecking, hv1, hv2, h2, hsame]
  · intro hdiff
    simp [applyOtherEventsVersionChecking, hv1, hv2, h2, hdiff]

/-- Witness for C8 at the fixture inputs: a remote prior authority with the
same-cluster test answering true, then false. -/
theorem C8_prior_remote_authority_witness :
    applyOtherEventsVersionChecking fixCMRemoteSame fixWorldNone fixMS
      fixReqInfo88 = ([], MutableStateOut.input, none)
    ∧ applyOtherEventsVersionChecking fixCMRemoteDiff fixWorldNone fixMS
        fixReqInfo88 =
      ([], MutableStateOut.dropped, some ReplicationError.moreThan2DC) := by
  constructor
  · exact (C8_prior_remote_authority fixCMRemoteSame fixWorldNone fixMS
      fixReqInfo88 (by decide) (by decide)).1 (by decide)
  · exact (C8_prior_remote_authority fixCMRemoteDiff fixWorldNone fixMS
      fixReqInfo88 (by decide) (by decide)).2 (by decide)

/-- Claim C1 exactly as stated: on an AlreadyStartedError reporting a
closed current run whose lastWriteVersion is strictly above the incoming
version, the replicator would delete the freshly appended branch with
DeleteHistoryBranch(branchToken, shardID), perform no second
CreateWorkflowExecution, and return success. -/
def claimC1Statement : Prop :=
  ∀ (env : StartReplicationEnv) (world : CurrentWorldView)
    (events : List HistoryEvent) (e : AlreadyStartedError),
    env.createResult = some e →
    e.runID ≠ env.runID →
    e.state = WorkflowState.completed →
    env.incomingVersion < e.lastWriteVersion →
    replicateWorkflowStarted env world events =
      ([Op.appendHistoryNodes env.branchToken,
        Op.createWorkflowExecution CreateMode.brandNew "" 0,
        Op.deleteHistoryBranch env.branchToken env.shardID], none)

/-- C1 counterexample: at the input of the repository test (current run r1
completed at version 145, incoming version 144) the replicator issues a
second CreateWorkflowExecution with mode WorkflowIDReuse and deletes no
branch, so claim C1 as stated is false. -/
theorem C1_counterexample : ¬ claimC1Statement := by
  intro h
  have hc := h fixStartEnvClosed fixWorldNone [] fixStartedClosed145 rfl
    (by decide) rfl (by decide)
  exact absurd hc (by decide)

/-- C1 amended: on an AlreadyStartedError reporting a closed current run
whose lastWriteVersion is strictly above the incoming version, the
replicator retries creation with mode WorkflowIDReuse, previousRunID equal
to the reported current run id and previousLastWriteVersion equal to the
reported last write version, performs no DeleteHistoryBranch, and returns
success when that retry succeeds. -/
theorem C1_closed_current_retries_with_id_reuse (env : StartReplicationEnv)
    (world : CurrentWorldView) (events : List HistoryEvent)
    (e : AlreadyStartedError)
    (h1 : env.createResult = some e)
    (h2 : e.runID ≠ env.runID)
    (h3 : e.state = WorkflowState.completed)
    (_h4 : env.incomingVersion < e.lastWriteVersion)
    (h5 : env.retryCreateError = none) :
    replicateWorkflowStarted env world events =
      ([Op.appendHistoryNodes env.branchToken,
        Op.createWorkflowExecution CreateMode.brandNew "" 0,
        Op.createWorkflowExecution CreateMode.workflowIDReuse e.runID
          e.lastWriteVersion], none) := by
  simp [replicateWorkflowStarted, h1, h2, h3, h5]

/-- Witness for the amended C1 at the fixture input of the repository test:
run r2 at version 144 against completed current r1 at version 145. -/
theorem C1_closed_current_retries_with_id_reuse_witness :
    replicateWorkflowStarted fixStartEnvClosed fixWorldNone [] =
      ([Op.appendHistoryNodes "bt",
        Op.createWorkflowExecution CreateMode.brandNew "" 0,
        Op.createWorkflowExecution CreateMode.workflowIDReuse "r1" 145],
       none) := by
  have h := C1_closed_current_retries_with_id_reuse fixStartEnvClosed
    fixWorldNone [] fixStartedClosed145 rfl (by decide) rfl (by decide) rfl
  exact h.trans (by decide)

/-- C3: on an AlreadyStartedError reporting a running current run whose
lastWriteVersion is strictly below the incoming version, the replicator
terminates the current run by adding WorkflowExecutionTerminatedEvent at
the current run nextEventID and committing as an active transaction, then
retries creation with mode WorkflowIDReuse, previousRunID equal to the
current run id and previousLastWriteVersion equal to the current last write
version, returning success when the retry succeeds. -/
theorem C3_terminate_current_then_id_reuse (env : StartReplicationEnv)
    (world : CurrentWorldView) (events : List HistoryEvent)
    (e : AlreadyStartedError)
    (h1 : env.createResult = some e)
    (h2 : e.runID ≠ env.runID)
    (h3 : e.state = WorkflowState.running)
    (h4 : e.lastWriteVersion < env.incomingVersion)
    (h5 : env.retryCreateError = none)
    (h6 : world.currentMS.lastWriteVersion = e.lastWriteVersion) :
    replicateWorkflowStarted env world events =
      ([Op.appendHistoryNodes env.branchToken,
        Op.createWorkflowExecution CreateMode.brandNew "" 0,
        Op.updateCurrentVersion e.lastWriteVersion true,
        Op.addWorkflowExecutionTerminatedEvent world.currentMS.nextEventID
          workflowTerminationReason workflowTerminationIdentity,
        Op.updateWorkflowExecutionAsActive,
        Op.createWorkflowExecution CreateMode.workflowIDReuse e.runID
          e.lastWriteVersion], none) := by
  have hstate : ¬ e.state = WorkflowState.completed := by simp [h3]
  have hv1 : ¬ env.incomingVersion < e.lastWriteVersion := by omega
  have hv2 : ¬ env.incomingVersion = e.lastWriteVersion := by omega
  simp [replicateWorkflowStarted, h1, h2, hstate, hv1, hv2, terminateOps,
    h6, h5]

/-- Witness for C3 at the fixture input of the repository test: run r2 at
version 144 against running current r1 at version 143 with next event id
2333. -/
theorem C3_terminate_current_then_id_reuse_witness :
    replicateWorkflowStarted fixStartEnvLarger fixWorldCurrent143 [] =
      ([Op.appendHistoryNodes "bt",
        Op.createWorkflowExecution CreateMode.brandNew "" 0,
        Op.updateCurrentVersion 143 true,
        Op.addWorkflowExecutionTerminatedEvent 2333
          workflowTerminationReason workflowTerminationIdentity,
        Op.updateWorkflowExecutionAsActive,
        Op.createWorkflowExecution CreateMode.workflowIDReuse "r1" 143],
       none) := by
  have h := C3_terminate_current_then_id_reuse fixStartEnvLarger
    fixWorldCurrent143 [] fixStartedRunning143 rfl (by decide) rfl
    (by decide) rfl rfl
  exact h.trans (by decide)

/-- Claim C6 exactly as stated: on an AlreadyStartedError reporting a
running current run at the incoming version, the replicator would return
success whenever the incoming last event task id is less than or equal to
the current run lastEventTaskID, and RetryTask(ErrRetryExistingWorkflow,
currentRunID, currentNextEventID) otherwise. -/
def claimC6Statement : Prop :=
  ∀ (env : StartReplicationEnv) (world : CurrentWorldView)
    (events : List HistoryEvent) (e : AlreadyStartedError),
    env.createResult = some e →
    e.runID ≠ env.runID →
    e.state = WorkflowState.running →
    e.lastWriteVersion = env.incomingVersion →
    (env.incomingLastEventTaskID ≤ world.currentMS.lastEventTaskID →
      replicateWorkflowStarted env world events =
        ([Op.appendHistoryNodes env.branchToken,
          Op.createWorkflowExecution CreateMode.brandNew "" 0], none))
    ∧ (world.currentMS.lastEventTaskID < env.incomingLastEventTaskID →
      replicateWorkflowStarted env world events =
        ([Op.appendHistoryNodes env.branchToken,
          Op.createWorkflowExecution CreateMode.brandNew "" 0],
         some (ReplicationError.retryTaskErr ErrRetryExistingWorkflowMsg
                world.currentMS.runID world.currentMS.nextEventID)))

/-- C6 counterexample: at the input of the repository test both task ids
are 0, so the claimed inclusive comparison would demand success, yet the
replicator returns RetryTask(ErrRetryExistingWorkflow, r1, 3456); claim C6
as stated is false. -/
theorem C6_counterexample : ¬ claimC6Statement := by
  intro h
  have hc := (h fixStartEnvEqual fixWorldCurrent3456 [] fixStartedRunning144
    rfl (by decide) rfl rfl).1 (by decide)
  exact absurd hc (by decide)

/-- C6 amended: on an AlreadyStartedError reporting a running current run
at the incoming version, the replicator returns success (out-of-order
duplicate) exactly when the incoming run last event task id is strictly
less than the current run lastEventTaskID, and otherwise returns
RetryTask(ErrRetryExistingWorkflow) carrying the current run id and its
nextEventID as the hint. -/
theorem C6_equal_version_retry_unless_stale_task_id
    (env : StartReplicationEnv) (world : CurrentWorldView)
    (events : List HistoryEvent) (e : AlreadyStartedError)
    (h1 : env.createResult = some e)
    (h2 : e.runID ≠ env.runID)
    (h3 : e.state = WorkflowState.running)
    (h4 : e.lastWriteVersion = env.incomingVersion) :
    (env.incomingLastEventTaskID < world.currentMS.lastEventTaskID →
      replicateWorkflowStarted env world events =
        ([Op.appendHistoryNodes env.branchToken,
          Op.createWorkflowExecution CreateMode.brandNew "" 0], none))
    ∧ (¬ env.incomingLastEventTaskID < world.currentMS.lastEventTaskID →
      replicateWorkflowStarted env world events =
        ([Op.appendHistoryNodes env.branchToken,
          Op.createWorkflowExecution CreateMode.brandNew "" 0],
         some (ReplicationError.retryTaskErr ErrRetryExistingWorkflowMsg
                world.currentMS.runID world.currentMS.nextEventID))) := by
  have hstate : ¬ e.state = WorkflowState.completed := by simp [h3]
  have hv1 : ¬ env.incomingVersion < e.lastWriteVersion := by omega
  have hv2 : env.incomingVersion = e.lastWriteVersion := by omega
  constructor
  · intro hlt
    simp [replicateWorkflowStarted, h1, h2, hstate, hv1, hv2, hlt]
  · intro hge
    simp [replicateWorkflowStarted, h1, h2, hstate, hv1, hv2, hge]

/-- Witness for the amended C6 at the fixture inputs of the repository
tests: the out-of-order duplicate (current lastEventTaskID 2343) and the
retry case (equal task ids). -/
theorem C6_equal_version_retry_unless_stale_task_id_witness :
    replicateWorkflowStarted fixStartEnvEqual fixWorldCurrent2343 [] =
      ([Op.appendHistoryNodes "bt",
        Op.createWorkflowExecution CreateMode.brandNew "" 0], none)
    ∧ replicateWorkflowStarted fixStartEnvEqual fixWorldCurrent3456 [] =
      ([Op.appendHistoryNodes "bt",
        Op.createWorkflowExecution CreateMode.brandNew "" 0],
       some (ReplicationError.retryTaskErr ErrRetryExistingWorkflowMsg "r1"
              3456)) := by
  constructor
  · exact ((C6_equal_version_retry_unless_stale_task_id fixStartEnvEqual
      fixWorldCurrent2343 [] fixStartedRunning144 rfl (by decide) rfl
      rfl).1 (by decide)).trans (by decide)
  · exact ((C6_equal_version_retry_unless_stale_task_id fixStartEnvEqual
      fixWorldCurrent3456 [] fixStartedRunning144 rfl (by decide) rfl
      rfl).2 (by decide)).trans (by decide)

/-- C7: in the missing-mutable-state path, a missing current execution
yields RetryTask(ErrWorkflowNotFound) naming the incoming run id with hint
firstEventID (1) and no termination; a running current run with last write
version strictly below the incoming first event version is terminated
(WorkflowExecutionTerminatedEvent at its nextEventID, committed as active)
and the same RetryTask(ErrWorkflowNotFound, firstEventID) naming the
incoming run id is returned. -/
theorem C7_missing_state_terminate_and_retry (world : CurrentWorldView)
    (runID : String) (req : ReplicateEventsRequest) (fe : HistoryEvent)
    (rest : List HistoryEvent) (currentRunID : String)
    (hev : req.events = fe :: rest) :
    (world.currentRunID = none →
      applyOtherEventsMissingMutableState world runID req =
        ([], some (ReplicationError.retryTaskErr ErrWorkflowNotFoundMsg runID
                    firstEventIDConst)))
    ∧ (world.currentRunID = some currentRunID →
       world.currentMS.lastWriteVersion < fe.version →
       world.currentMS.state ≠ WorkflowState.completed →
       req.resetWorkflow = false →
       applyOtherEventsMissingMutableState world runID req =
         ([Op.updateCurrentVersion world.currentMS.lastWriteVersion true,
           Op.addWorkflowExecutionTerminatedEvent world.currentMS.nextEventID
             workflowTerminationReason workflowTerminationIdentity,
           Op.updateWorkflowExecutionAsActive],
          some (ReplicationError.retryTaskErr ErrWorkflowNotFoundMsg runID
                 firstEventIDConst))) := by
  constructor
  · intro hnone
    simp [applyOtherEventsMissingMutableState, hev, hnone]
  · intro hsome hver hrun hreset
    have hv1 : ¬ fe.version < world.currentMS.lastWriteVersion := by omega
    have hv2 : ¬ fe.version = world.currentMS.lastWriteVersion := by omega
    simp [applyOtherEventsMissingMutableState, hev, hsome, hv1, hreset, hv2,
      hrun, terminateOps]

/-- Witness for C7 at the fixture inputs of the repository tests: no
current execution, then a running current at version 23 against incoming
version 123. -/
theorem C7_missing_state_terminate_and_retry_witness :
    applyOtherEventsMissingMutableState fixWorldNone "rid" fixReqPlain123 =
      ([], some (ReplicationError.retryTaskErr ErrWorkflowNotFoundMsg "rid" 1))
    ∧ applyOtherEventsMissingMutableState fixWorldCurrent23 "rid"
        fixReqPlain123 =
      ([Op.updateCurrentVersion 23 true,
        Op.addWorkflowExecutionTerminatedEvent 2333
          workflowTerminationReason workflowTerminationIdentity,
        Op.updateWorkflowExecutionAsActive],
       some (ReplicationError.retryTaskErr ErrWorkflowNotFoundMsg "rid" 1)) := by
  constructor
  · exact ((C7_missing_state_terminate_and_retry fixWorldNone "rid"
      fixReqPlain123
      { eventId := 1, version := 123, taskId := 0,
        eventType := EventType.otherEvent, signalName := "",
        signalInput := "", signalIdentity := "" } [] "cur"
      (by decide)).1 rfl).trans (by decide)
  · exact ((C7_missing_state_terminate_and_retry fixWorldCurrent23 "rid"
      fixReqPlain123
      { eventId := 1, version := 123, taskId := 0,
        eventType := EventType.otherEvent, signalName := "",
        signalInput := "", signalIdentity := "" } [] "cur"
      (by decide)).2 rfl (by decide) (by decide) rfl).trans (by decide)

/-- C9: in ApplyOtherEvents on a known run, a batch whose firstEventID is
strictly below the local nextEventID is dropped as a duplicate with success
and nothing committed, and a batch whose firstEventID is strictly above the
local nextEventID while the workflow is running returns
RetryTask(ErrRetryBufferEvents) carrying the local nextEventID as the
hint. -/
theorem C9_duplicate_drop_and_gap_retry (ms : MutableState)
    (req : ReplicateEventsRequest) :
    (req.firstEventId < ms.nextEventID →
      applyOtherEvents ms req = ([], none))
    ∧ (ms.nextEventID < req.firstEventId →
       ms.state ≠ WorkflowState.completed →
       applyOtherEvents ms req =
         ([], some (ReplicationError.retryTaskErr ErrRetryBufferEventsMsg
                     ms.runID ms.nextEventID))) := by
  constructor
  · intro hlt
    simp [applyOtherEvents, hlt]
  · intro hgt hrun
    have hv1 : ¬ req.firstEventId < ms.nextEventID := by omega
    have hv2 : ¬ req.firstEventId = ms.nextEventID := by omega
    simp [applyOtherEvents, hv1, hv2, hrun]

/-- Witness for C9 at the fixture inputs of the repository tests: local
nextEventID 10 with batch starts 6 and 14. -/
theorem C9_duplicate_drop_and_gap_retry_witness :
    applyOtherEvents fixMSNext10 fixReqFirst6 = ([], none)
    ∧ applyOtherEvents fixMSNext10 fixReqFirst14 =
      ([], some (ReplicationError.retryTaskErr ErrRetryBufferEventsMsg "cur"
                  10)) := by
  constructor
  · exact (C9_duplicate_drop_and_gap_retry fixMSNext10 fixReqFirst6).1
      (by decide)
  · exact ((C9_duplicate_drop_and_gap_retry fixMSNext10 fixReqFirst14).2
      (by decide) (by decide)).trans (by decide)

/-- C10: the conflict-resolution terminate step returns the target run own
(runID, lastWriteVersion, state) with an empty trace when the target is
still running; with the target closed and the current run running at or
above the incoming version it returns an empty previous-run id with no
termination; with the target closed and the current run running strictly
below the incoming version it terminates the current run and reports it
with state Completed; and a termination occurs in the trace only when the
target is closed, the current run is a different run, its status is
running, and its last write version is strictly below the incoming
version. -/
theorem C10_conflict_resolution_terminate_guard (target : MutableState)
    (incomingVersion : Int) (cur : CurrentExecutionRecord)
    (cms : MutableState)
    (hcons : cur.runID = target.runID → cur.statusRunning = false) :
    (target.state ≠ WorkflowState.completed →
      conflictResolutionTerminateCurrentRunningIfNotSelf target
        incomingVersion (some cur) cms =
        ([], (target.runID, target.lastWriteVersion, target.state), none))
    ∧ (target.state = WorkflowState.completed →
       cur.statusRunning = true →
       incomingVersion ≤ cur.lastWriteVersion →
       conflictResolutionTerminateCurrentRunningIfNotSelf target
         incomingVersion (some cur) cms =
         ([], ("", 0, WorkflowState.created), none))
    ∧ (target.state = WorkflowState.completed →
       cur.statusRunning = true →
       cur.lastWriteVersion < incomingVersion →
       conflictResolutionTerminateCurrentRunningIfNotSelf target
         incomingVersion (some cur) cms =
         ([Op.updateCurrentVersion cms.lastWriteVersion true,
           Op.addWorkflowExecutionTerminatedEvent cms.nextEventID
             workflowTerminationReason workflowTerminationIdentity,
           Op.updateWorkflowExecutionAsActive],
          (cur.runID, cur.lastWriteVersion, WorkflowState.completed), none))
    ∧ (mentionsTerminate
        (conflictResolutionTerminateCurrentRunningIfNotSelf target
          incomingVersion (some cur) cms).1 = true →
       target.state = WorkflowState.completed ∧ cur.runID ≠ target.runID ∧
       cur.statusRunning = true ∧
       cur.lastWriteVersion < incomingVersion) := by
  refine ⟨?_, ?_, ?_, ?_⟩
  · intro hrun
    simp [conflictResolutionTerminateCurrentRunningIfNotSelf, hrun]
  · intro hclosed hstat hle
    simp [conflictResolutionTerminateCurrentRunningIfNotSelf, hclosed, hstat,
      hle]
  · intro hclosed hstat hgt
    have hnle : ¬ incomingVersion ≤ cur.lastWriteVersion := by omega
    simp [conflictResolutionTerminateCurrentRunningIfNotSelf, hclosed, hstat,
      hnle, terminateOps]
  · intro hterm
    by_cases hclosed : target.state = WorkflowState.completed
    · by_cases hstat : cur.statusRunning = true
      · by_cases hle : incomingVersion ≤ cur.lastWriteVersion
        · exfalso
          simp [conflictResolutionTerminateCurrentRunningIfNotSelf, hclosed,
            hstat, hle, mentionsTerminate] at hterm
        · refine ⟨hclosed, ?_, hstat, by omega⟩
          intro heq
          exact absurd (hcons heq) (by simp [hstat])
      · exfalso
        simp [conflictResolutionTerminateCurrentRunningIfNotSelf, hclosed,
          hstat, mentionsTerminate] at hterm
    · exfalso
      simp [conflictResolutionTerminateCurrentRunningIfNotSelf, hclosed,
        mentionsTerminate] at hterm

/-- Witness for C10 at the fixture inputs of the repository tests: running
target untouched, equal-version guard yielding an empty previous-run id,
termination of the running current cr at version 4086 against incoming
4096, and the termination guard conjunction at the same input. -/
theorem C10_conflict_resolution_terminate_guard_witness :
    conflictResolutionTerminateCurrentRunningIfNotSelf fixMS 4096
      (some fixCurRecRunning) fixMSCurrent4086 =
      ([], ("cur", 10, WorkflowState.running), none)
    ∧ conflictResolutionTerminateCurrentRunningIfNotSelf fixMSTargetClosed
        4086 (some fixCurRecRunning) fixMSCurrent4086 =
      ([], ("", 0, WorkflowState.created), none)
    ∧ conflictResolutionTerminateCurrentRunningIfNotSelf fixMSTargetClosed
        4096 (some fixCurRecRunning) fixMSCurrent4086 =
      ([Op.updateCurrentVersion 4086 true,
        Op.addWorkflowExecutionTerminatedEvent 2333
          workflowTerminationReason workflowTerminationIdentity,
        Op.updateWorkflowExecutionAsActive],
       ("cr", 4086, WorkflowState.completed), none)
    ∧ (fixMSTargetClosed.state = WorkflowState.completed ∧
       fixCurRecRunning.runID ≠ fixMSTargetClosed.runID ∧
       fixCurRecRunning.statusRunning = true ∧
       fixCurRecRunning.lastWriteVersion < 4096) := by
  refine ⟨?_, ?_, ?_, ?_⟩
  · exact ((C10_conflict_resolution_terminate_guard fixMS 4096
      fixCurRecRunning fixMSCurrent4086 (by decide)).1 (by decide)).trans
      (by decide)
  · exact ((C10_conflict_resolution_terminate_guard fixMSTargetClosed 4086
      fixCurRecRunning fixMSCurrent4086 (by decide)).2.1 rfl (by decide)
      (by decide)).trans (by decide)
  · exact ((C10_conflict_resolution_terminate_guard fixMSTargetClosed 4096
      fixCurRecRunning fixMSCurrent4086 (by decide)).2.2.1 rfl (by decide)
      (by decide)).trans (by decide)
  · exact (C10_conflict_resolution_terminate_guard fixMSTargetClosed 4096
      fixCurRecRunning fixMSCurrent4086 (by decide)).2.2.2 (by decide)

end TemporalReplicator
